import Mathlib

/-!
Shallow embedding of `dingo/volestipy.pyx`, the Cython wrapper around the
volesti C++ volume/sampling engine, together with theorems checking the
natural-language specification against it.

Modelling conventions:
* `double` values are modelled as `Rat` (the wrapper itself performs no
  floating-point arithmetic on them; it only compares MMCS status values
  against the literals 1.0 and 2.0 and moves data around).
* numpy matrices / vectors are `List (List Rat)` / `List Rat`;
  `A.shape[0]` is the list length and `A.shape[1]` the length of a row.
* The C++ class `HPolytopeCPP` (declared in `bindings.h`, outside the
  wrapper source) and the two inner-ball suppliers
  (`fast_inner_ball`, `slow_inner_ball`, imported from other modules) are
  external collaborators; they are modelled as an explicit environment of
  functions over an abstract C++ state type `S`.  A C++ routine that
  writes through an output pointer into a caller-allocated buffer of shape
  m × n is modelled as returning the written values as a function
  `Nat → Nat → Rat`, which the wrapper materialises at the buffer's shape.
* Every wrapper operation additionally returns the list of external calls
  it performed, in order, so that "no numerical work happens before
  validation"-style claims become statements about that trace.
* The unbounded `while True` loops of `fast_mmcs`/`slow_mmcs` take a fuel
  parameter; exhausted fuel yields `none`.
-/

abbrev Vec := List Rat
abbrev Mat := List (List Rat)

/-- Number of rows, `A.shape[0]` of a 2-d numpy array. -/
def matRows (A : Mat) : Nat := A.length

/-- Number of columns, `A.shape[1]` of a 2-d numpy array. -/
def matCols (A : Mat) : Nat := (A.headD []).length

/-- Values written by C++ through a pointer into a caller-allocated
vector buffer of length `n`, materialised back as the numpy view. -/
def fillVec (n : Nat) (f : Nat → Rat) : Vec :=
  (List.range n).map f

/-- Values written by C++ through a pointer into a caller-allocated
matrix buffer of shape `m × n`, materialised back as the numpy view. -/
def fillMat (m n : Nat) (f : Nat → Nat → Rat) : Mat :=
  (List.range m).map (fun i => fillVec n (f i))

/-- Python exceptions raised by the wrapper: `Exception(...)` in
`compute_volume`, `RuntimeError(...)` in `generate_samples` and
`rounding`. -/
inductive PyError where
  | exc (msg : String)
  | runtimeError (msg : String)
deriving DecidableEq, Repr

/-- One external call performed by the wrapper, recorded with its
arguments (and, for `mmcs_step`, the returned status, which drives the
wrapper's control flow). -/
inductive Event where
  | fastInnerBall (A : Mat) (b : Vec)
  | slowInnerBall (A : Mat) (b : Vec)
  | cppComputeVolume (vol_method walk_method : String) (walk_len : Int)
      (epsilon : Rat) (seed : Int)
  | cppApplySampling (walk_len : Int) (number_of_points : Nat)
      (number_of_points_to_burn : Int) (method : Int)
      (inner_point : Vec) (radius : Rat)
  | cppApplyRounding (method : Int) (inner_point : Vec) (radius : Rat)
  | cppMmcsInitialize (d : Nat) (ess : Int) (psrf_check parallelism : Bool)
      (num_threads : Int)
  | cppMmcsStep (inner_point : Vec) (radius : Rat) (check : Rat)
  | cppGetPolytopeAsMatrices
  | cppGetMmcsSamples
deriving DecidableEq, Repr

/-- The external collaborators of the wrapper, over an abstract C++
object state `S`: the two inner-ball suppliers and the methods of
`HPolytopeCPP` declared in `bindings.h`.  Methods that may mutate the
C++ object return a new state; getters are modelled as pure reads. -/
structure ForeignEnv (S : Type) where
  fast_inner_ball : Mat → Vec → Vec × Rat
  slow_inner_ball : Mat → Vec → Vec × Rat
  hpolytope_cpp_init : Mat → Vec → Nat → Nat → S
  cpp_compute_volume : S → String → String → Int → Rat → Int → Rat × S
  cpp_apply_sampling : S → Int → Nat → Int → Int → Vec → Rat →
    (Nat → Nat → Rat) × S
  cpp_mmcs_initialize : S → Nat → Int → Bool → Bool → Int → S
  cpp_mmcs_step : S → Vec → Rat → Rat × Int × S
  cpp_get_mmcs_samples : S → (Nat → Nat → Rat) × (Nat → Rat) × (Nat → Nat → Rat)
  cpp_get_polytope_as_matrices : S → (Nat → Nat → Rat) × (Nat → Rat)
  cpp_apply_rounding : S → Int → Vec → Rat →
    ((Nat → Nat → Rat) × (Nat → Rat) × (Nat → Nat → Rat) × (Nat → Rat) × Rat) × S

/-- `get_time_seed()` of the wrapper: `int(time.time())`, a read of the
wall clock. -/
def get_time_seed (time_now : Int) : Int := time_now

/-- Module-level allow-list `volume_methods` (the `.encode("UTF-8")`
byte-string conversion is transparent in this embedding). -/
def volume_methods : List String :=
  ["sequence_of_balls", "cooling_gaussian", "cooling_balls"]

/-- Module-level allow-list `walk_methods`; the source lists
`"uniform_ball"` twice. -/
def walk_methods : List String :=
  ["uniform_ball", "CDHR", "RDHR", "gaussian_ball",
   "gaussian_CDHR", "gaussian_RDHR", "uniform_ball", "billiard"]

/-- Module-level list `rounding_methods` (defined in the source but not
consulted by `HPolytope.rounding`, which uses a hard-coded if/elif
chain). -/
def rounding_methods : List String :=
  ["min_ellipsoid", "svd", "max_ellipsoid"]

/-- The `HPolytope` cdef class: the C++ object plus the two memoryview
attributes `_A` and `_b` set in `__cinit__`. -/
structure HPolytope (S : Type) where
  polytope_cpp : S
  _A : Mat
  _b : Vec

/-- `HPolytope.__cinit__(A, b)`: stores `A` and `b` and constructs the
C++ object from raw pointers into them plus `A`'s two dimensions.  No
dimension check of any kind is performed; `b`'s length is never
inspected.

Modelled from the spec: the `HPolytopeCPP` constructor body lives in
`bindings.h`/volesti, outside the wrapper source; per the spec the
polytope representation is "immutable once constructed", so the C++
object is modelled as capturing the construction-time values without
retaining a mutable alias into `_A`/`_b`. -/
def HPolytope.cinit {S : Type} (env : ForeignEnv S) (A : Mat) (b : Vec) :
    HPolytope S :=
  let n_hyperplanes := matRows A
  let n_variables := matCols A
  { _A := A
    _b := b
    polytope_cpp := env.hpolytope_cpp_init A b n_hyperplanes n_variables }

/-- The wrapper module state after `import`: the external bindings plus
the default value of `compute_volume`'s `seed` parameter, which Python
evaluates exactly once, at function-definition (module-import) time, by
calling `get_time_seed()`. -/
structure VolestipyModule (S : Type) where
  env : ForeignEnv S
  compute_volume_default_seed : Int

/-- Importing the module: the single wall-clock read that produces the
default seed happens here, not at call time. -/
def importVolestipy {S : Type} (env : ForeignEnv S) (import_time : Int) :
    VolestipyModule S :=
  { env := env
    compute_volume_default_seed := get_time_seed import_time }

/-- `HPolytope.compute_volume(walk_len, epsilon, vol_method, walk_method,
seed)`.  A call that omits `seed` (modelled as `none`) uses the module's
pre-evaluated default.  Validates `vol_method` then `walk_method`
against the module allow-lists before calling the C++ core; on failure
raises `Exception(...)` without performing any external call. -/
def HPolytope.compute_volume {S : Type} (mod : VolestipyModule S)
    (self : HPolytope S) (walk_len : Int) (epsilon : Rat)
    (vol_method walk_method : String) (seed : Option Int) :
    Except PyError Rat × List Event × HPolytope S :=
  let seedv := seed.getD mod.compute_volume_default_seed
  if vol_method ∈ volume_methods then
    if walk_method ∈ walk_methods then
      let call := mod.env.cpp_compute_volume self.polytope_cpp
        vol_method walk_method walk_len epsilon seedv
      (Except.ok call.1,
       [Event.cppComputeVolume vol_method walk_method walk_len epsilon seedv],
       { self with polytope_cpp := call.2 })
    else
      (Except.error (PyError.exc
        (walk_method ++ " is not implemented to walk methods")), [], self)
  else
    (Except.error (PyError.exc
      (vol_method ++ " is not implemented to compute volume")), [], self)

/-- The if/elif chain of `generate_samples` mapping an MCMC method name
to its integer code; `none` models the `raise RuntimeError` branch. -/
def samplingMethodCode (method : String) : Option Int :=
  if method == "cdhr" then some 1
  else if method == "rdhr" then some 2
  else if method == "billiard_walk" then some 3
  else if method == "ball_walk" then some 4
  else if method == "dikin_walk" then some 5
  else if method == "john_walk" then some 6
  else if method == "vaidya_walk" then some 7
  else none

/-- `HPolytope.generate_samples(method, number_of_points,
number_of_points_to_burn, walk_len, fast_mode)`.  Allocates a
`number_of_points × n_variables` buffer, computes the inscribed ball of
the stored polytope (fast or slow supplier according to `fast_mode`),
then resolves the method string, then calls `apply_sampling` which fills
the buffer.  `number_of_points` is a `Nat` because `np.zeros` rejects a
negative shape. -/
def HPolytope.generate_samples {S : Type} (env : ForeignEnv S)
    (self : HPolytope S) (method : String) (number_of_points : Nat)
    (number_of_points_to_burn walk_len : Int) (fast_mode : Bool) :
    Except PyError Mat × List Event × HPolytope S :=
  let n_variables := matCols self._A
  let ballCall :=
    if fast_mode then
      (env.fast_inner_ball self._A self._b,
       Event.fastInnerBall self._A self._b)
    else
      (env.slow_inner_ball self._A self._b,
       Event.slowInnerBall self._A self._b)
  let temp_center := ballCall.1.1
  let radius := ballCall.1.2
  let inner_point_for_c := temp_center
  match samplingMethodCode method with
  | none =>
      (Except.error (PyError.runtimeError "Uknown MCMC sampling method"),
       [ballCall.2], self)
  | some int_method =>
      let call := env.cpp_apply_sampling self.polytope_cpp walk_len
        number_of_points number_of_points_to_burn int_method
        inner_point_for_c radius
      (Except.ok (fillMat number_of_points n_variables call.1),
       [ballCall.2,
        Event.cppApplySampling walk_len number_of_points
          number_of_points_to_burn int_method inner_point_for_c radius],
       { self with polytope_cpp := call.2 })

/-- The if/elif chain of `rounding` mapping a rounding method name to
its integer code; `none` models the `raise RuntimeError` branch. -/
def roundingMethodCode (rounding_method : String) : Option Int :=
  if rounding_method == "john_position" then some 1
  else if rounding_method == "isotropic_position" then some 2
  else if rounding_method == "min_ellipsoid" then some 3
  else none

/-- `HPolytope.rounding(rounding_method, fast_mode)`.  Allocates fresh
output buffers sized from the stored polytope, computes the inscribed
ball of the stored polytope, then resolves the method string, then calls
`apply_rounding` which fills the buffers; returns
`(new_A, new_b, T_matrix, shift, round_value)`. -/
def HPolytope.rounding {S : Type} (env : ForeignEnv S) (self : HPolytope S)
    (rounding_method : String) (fast_mode : Bool) :
    Except PyError (Mat × Vec × Mat × Vec × Rat) × List Event × HPolytope S :=
  let n_hyperplanes := matRows self._A
  let n_variables := matCols self._A
  let ballCall :=
    if fast_mode then
      (env.fast_inner_ball self._A self._b,
       Event.fastInnerBall self._A self._b)
    else
      (env.slow_inner_ball self._A self._b,
       Event.slowInnerBall self._A self._b)
  let center := ballCall.1.1
  let radius := ballCall.1.2
  let inner_point_for_c := center
  match roundingMethodCode rounding_method with
  | none =>
      (Except.error (PyError.runtimeError "Uknown rounding method"),
       [ballCall.2], self)
  | some int_method =>
      let call := env.cpp_apply_rounding self.polytope_cpp
        int_method inner_point_for_c radius
      let new_A := fillMat n_hyperplanes n_variables call.1.1
      let new_b := fillVec n_hyperplanes call.1.2.1
      let T_matrix := fillMat n_variables n_variables call.1.2.2.1
      let shift := fillVec n_variables call.1.2.2.2.1
      let round_value := call.1.2.2.2.2
      (Except.ok (new_A, new_b, T_matrix, shift, round_value),
       [ballCall.2, Event.cppApplyRounding int_method inner_point_for_c radius],
       { self with polytope_cpp := call.2 })

/-- The `while True` loop of `fast_mmcs`: run `mmcs_step`; break exactly
when `check > 1.0 and check < 2.0`; otherwise fetch the current rounded
polytope into the `n_hyperplanes × n_variables` buffers, recompute the
inscribed ball with `fast_inner_ball`, and iterate.  Returns the final
`N_samples`, the final C++ state and the event trace, or `none` when the
fuel runs out (the source loop has no bound). -/
def fastMmcsLoop {S : Type} (env : ForeignEnv S)
    (n_hyperplanes n_variables : Nat) :
    Nat → Vec → Rat → S → Option (Int × S × List Event)
  | 0, _, _, _ => none
  | fuel + 1, inner_point_for_c, radius, s =>
      let step := env.cpp_mmcs_step s inner_point_for_c radius
      let check := step.1
      let N_samples := step.2.1
      let s' := step.2.2
      let ev := Event.cppMmcsStep inner_point_for_c radius check
      if check > 1 ∧ check < 2 then
        some (N_samples, s', [ev])
      else
        let written := env.cpp_get_polytope_as_matrices s'
        let new_A := fillMat n_hyperplanes n_variables written.1
        let new_b := fillVec n_hyperplanes written.2
        let ball := env.fast_inner_ball new_A new_b
        (fastMmcsLoop env n_hyperplanes n_variables fuel ball.1 ball.2 s').map
          (fun x => (x.1, x.2.1,
            ev :: Event.cppGetPolytopeAsMatrices ::
              Event.fastInnerBall new_A new_b :: x.2.2))

/-- The `while True` loop of `slow_mmcs`; identical to `fastMmcsLoop`
except that the inscribed ball of the fetched polytope is recomputed
with `slow_inner_ball`. -/
def slowMmcsLoop {S : Type} (env : ForeignEnv S)
    (n_hyperplanes n_variables : Nat) :
    Nat → Vec → Rat → S → Option (Int × S × List Event)
  | 0, _, _, _ => none
  | fuel + 1, inner_point_for_c, radius, s =>
      let step := env.cpp_mmcs_step s inner_point_for_c radius
      let check := step.1
      let N_samples := step.2.1
      let s' := step.2.2
      let ev := Event.cppMmcsStep inner_point_for_c radius check
      if check > 1 ∧ check < 2 then
        some (N_samples, s', [ev])
      else
        let written := env.cpp_get_polytope_as_matrices s'
        let new_A := fillMat n_hyperplanes n_variables written.1
        let new_b := fillVec n_hyperplanes written.2
        let ball := env.slow_inner_ball new_A new_b
        (slowMmcsLoop env n_hyperplanes n_variables fuel ball.1 ball.2 s').map
          (fun x => (x.1, x.2.1,
            ev :: Event.cppGetPolytopeAsMatrices ::
              Event.slowInnerBall new_A new_b :: x.2.2))

/-- `HPolytope.fast_mmcs(ess, psrf_check, parallelism, num_threads)`:
initialise the MMCS session with the polytope dimension, compute the
initial inscribed ball with `fast_inner_ball`, run the phase loop, then
read back the transform, the `n_variables × N_samples` sample matrix and
the final rounded polytope.  The C++ `mmcs_step` writes the sample count
into `N_samples` by reference; `np.zeros` requires it non-negative, hence
`toNat`.  `psrf_check`/`parallelism` pass through `bool(...)`, modelled
as `Bool` arguments. -/
def HPolytope.fast_mmcs {S : Type} (env : ForeignEnv S) (self : HPolytope S)
    (ess : Int) (psrf_check parallelism : Bool) (num_threads : Int)
    (fuel : Nat) :
    Option ((Mat × Vec × Mat × Vec × Mat) × HPolytope S × List Event) :=
  let n_hyperplanes := matRows self._A
  let n_variables := matCols self._A
  let check_psrf := psrf_check
  let parallel := parallelism
  let s0 := env.cpp_mmcs_initialize self.polytope_cpp n_variables ess
    check_psrf parallel num_threads
  let ball := env.fast_inner_ball self._A self._b
  match fastMmcsLoop env n_hyperplanes n_variables fuel ball.1 ball.2 s0 with
  | none => none
  | some (N_samples, s1, loopTrace) =>
      let got := env.cpp_get_mmcs_samples s1
      let T_matrix := fillMat n_variables n_variables got.1
      let T_shift := fillVec n_variables got.2.1
      let samples := fillMat n_variables N_samples.toNat got.2.2
      let written := env.cpp_get_polytope_as_matrices s1
      let new_A := fillMat n_hyperplanes n_variables written.1
      let new_b := fillVec n_hyperplanes written.2
      some ((new_A, new_b, T_matrix, T_shift, samples),
        { self with polytope_cpp := s1 },
        Event.cppMmcsInitialize n_variables ess check_psrf parallel num_threads
          :: Event.fastInnerBall self._A self._b
          :: (loopTrace ++ [Event.cppGetMmcsSamples,
                            Event.cppGetPolytopeAsMatrices]))

/-- `HPolytope.slow_mmcs(ess, psrf_check, parallelism, num_threads)`;
identical to `fast_mmcs` except that both the initial inscribed ball and
the per-phase recomputations use `slow_inner_ball`. -/
def HPolytope.slow_mmcs {S : Type} (env : ForeignEnv S) (self : HPolytope S)
    (ess : Int) (psrf_check parallelism : Bool) (num_threads : Int)
    (fuel : Nat) :
    Option ((Mat × Vec × Mat × Vec × Mat) × HPolytope S × List Event) :=
  let n_hyperplanes := matRows self._A
  let n_variables := matCols self._A
  let check_psrf := psrf_check
  let parallel := parallelism
  let s0 := env.cpp_mmcs_initialize self.polytope_cpp n_variables ess
    check_psrf parallel num_threads
  let ball := env.slow_inner_ball self._A self._b
  match slowMmcsLoop env n_hyperplanes n_variables fuel ball.1 ball.2 s0 with
  | none => none
  | some (N_samples, s1, loopTrace) =>
      let got := env.cpp_get_mmcs_samples s1
      let T_matrix := fillMat n_variables n_variables got.1
      let T_shift := fillVec n_variables got.2.1
      let samples := fillMat n_variables N_samples.toNat got.2.2
      let written := env.cpp_get_polytope_as_matrices s1
      let new_A := fillMat n_hyperplanes n_variables written.1
      let new_b := fillVec n_hyperplanes written.2
      some ((new_A, new_b, T_matrix, T_shift, samples),
        { self with polytope_cpp := s1 },
        Event.cppMmcsInitialize n_variables ess check_psrf parallel num_threads
          :: Event.slowInnerBall self._A self._b
          :: (loopTrace ++ [Event.cppGetMmcsSamples,
                            Event.cppGetPolytopeAsMatrices]))

/-- Accessor `HPolytope.A()`. -/
def HPolytope.A {S : Type} (self : HPolytope S) : Mat := self._A

/-- Accessor `HPolytope.b()`. -/
def HPolytope.b {S : Type} (self : HPolytope S) : Vec := self._b

/-- Accessor `HPolytope.dimension()`, `self._A.shape[1]`. -/
def HPolytope.dimension {S : Type} (self : HPolytope S) : Nat :=
  matCols self._A

/-! Trace observations and helper predicates. -/

/-- The sequence of `mmcs_step` status values occurring in a trace. -/
def stepChecks (tr : List Event) : List Rat :=
  tr.filterMap fun e =>
    match e with
    | Event.cppMmcsStep _ _ c => some c
    | _ => none

/-- Whether an event is an inner-ball computation (fast or slow). -/
def isInnerBallEvent : Event → Bool
  | Event.fastInnerBall _ _ => true
  | Event.slowInnerBall _ _ => true
  | _ => false

/-- A failed MMCS status per the spec: `status ≥ 2` or negative. -/
def failedStatus (c : Rat) : Prop := 2 ≤ c ∨ c < 0

instance (c : Rat) : Decidable (failedStatus c) := by
  unfold failedStatus; infer_instance

/-- The spec's termination-on-failure policy, read off a run's trace: a
phase whose status is failed is the last phase of the run. -/
def terminatesOnFailure (tr : List Event) : Prop :=
  ∀ i c, (stepChecks tr).get? i = some c → failedStatus c →
    (stepChecks tr).get? (i + 1) = none

/-- Renames a fast inner-ball event into the slow one and conversely,
leaving every other event unchanged. -/
def swapBall : Event → Event
  | Event.fastInnerBall A b => Event.slowInnerBall A b
  | Event.slowInnerBall A b => Event.fastInnerBall A b
  | e => e

/-! Shape facts about materialised buffers. -/

lemma fillVec_length (n : Nat) (f : Nat → Rat) : (fillVec n f).length = n := by
  simp [fillVec]

lemma fillMat_rows (m n : Nat) (f : Nat → Nat → Rat) :
    matRows (fillMat m n f) = m := by
  simp [fillMat, matRows]

lemma fillMat_row_length (m n : Nat) (f : Nat → Nat → Rat) :
    ∀ row ∈ fillMat m n f, row.length = n := by
  intro row hrow
  simp only [fillMat, List.mem_map] at hrow
  obtain ⟨i, _, rfl⟩ := hrow
  exact fillVec_length n (f i)

/-! Concrete environments used to evaluate the development on closed
inputs. -/

/-- A concrete environment over a trivial C++ state. -/
def trivEnv : ForeignEnv Unit where
  fast_inner_ball := fun _ _ => ([0], 1)
  slow_inner_ball := fun _ _ => ([0], 1)
  hpolytope_cpp_init := fun _ _ _ _ => ()
  cpp_compute_volume := fun _ _ _ _ _ _ => (1, ())
  cpp_apply_sampling := fun _ _ _ _ _ _ _ => (fun _ _ => 0, ())
  cpp_mmcs_initialize := fun _ _ _ _ _ _ => ()
  cpp_mmcs_step := fun _ _ _ => (3/2, 5, ())
  cpp_get_mmcs_samples := fun _ => (fun _ _ => 0, fun _ => 0, fun _ _ => 0)
  cpp_get_polytope_as_matrices := fun _ => (fun _ _ => 0, fun _ => 0)
  cpp_apply_rounding := fun _ _ _ _ =>
    ((fun _ _ => 0, fun _ => 0, fun _ _ => 0, fun _ => 0, 1), ())

/-- A concrete polytope over `trivEnv` (a triangle in the plane). -/
def p0 : HPolytope Unit :=
  HPolytope.cinit trivEnv [[1, 0], [0, 1], [-1, -1]] [1, 1, 1]

/-- A concrete environment whose C++ state counts the `mmcs_step` calls:
the first step reports the failed status `2`, the second the converged
status `3/2`. -/
def failEnv : ForeignEnv Nat where
  fast_inner_ball := fun _ _ => ([0], 1)
  slow_inner_ball := fun _ _ => ([0], 1)
  hpolytope_cpp_init := fun _ _ _ _ => 0
  cpp_compute_volume := fun s _ _ _ _ _ => (1, s)
  cpp_apply_sampling := fun s _ _ _ _ _ _ => (fun _ _ => 0, s)
  cpp_mmcs_initialize := fun _ _ _ _ _ _ => 0
  cpp_mmcs_step := fun s _ _ => (if s = 0 then 2 else 3/2, 5, s + 1)
  cpp_get_mmcs_samples := fun _ => (fun _ _ => 0, fun _ => 0, fun _ _ => 0)
  cpp_get_polytope_as_matrices := fun _ => (fun _ _ => 0, fun _ => 0)
  cpp_apply_rounding := fun s _ _ _ =>
    ((fun _ _ => 0, fun _ => 0, fun _ _ => 0, fun _ => 0, 1), s)

/-- A concrete polytope over `failEnv`. -/
def pFail : HPolytope Nat := HPolytope.cinit failEnv [[1]] [1]

/-- The event trace of a `fast_mmcs` run over `failEnv` whose first
phase reports the failed status `2`. -/
def failRunTrace : List Event :=
  ((HPolytope.fast_mmcs failEnv pFail 1000 true false 2 3).map
    (fun x => x.2.2)).getD []

/-! Claim C4: polytope construction. -/

/-- C4 counterexample: constructing an `HPolytope` from a 2-row matrix
`A` and a length-1 vector `b` does not fail with any dimension error —
`__cinit__` performs no check and simply stores the mismatched pair. -/
theorem C4_counterexample :
    matRows [[(1 : Rat)], [1]] ≠ ([(1 : Rat)]).length ∧
    (HPolytope.cinit trivEnv [[(1 : Rat)], [1]] [(1 : Rat)])._A =
      [[(1 : Rat)], [1]] ∧
    (HPolytope.cinit trivEnv [[(1 : Rat)], [1]] [(1 : Rat)])._b =
      [(1 : Rat)] :=
  ⟨by decide, rfl, rfl⟩

/-- C4 (amended): `HPolytope.__cinit__` performs no dimension
validation at all: for every `(A, b)`, matching or not, construction
succeeds, stores `(A, b)` verbatim and forwards `A`'s two dimensions
(never `b`'s length) to the C++ constructor. -/
theorem C4_cinit_stores_unconditionally {S : Type} (env : ForeignEnv S)
    (A : Mat) (b : Vec) :
    (HPolytope.cinit env A b)._A = A ∧
    (HPolytope.cinit env A b)._b = b ∧
    (HPolytope.cinit env A b).polytope_cpp =
      env.hpolytope_cpp_init A b (matRows A) (matCols A) :=
  ⟨rfl, rfl, rfl⟩

/-! Claim C6: the rounding method allow-list. -/

/-- C6: `rounding` accepts exactly `john_position`, `isotropic_position`
and `min_ellipsoid`, mapped to the internal codes 1, 2, 3 respectively;
every other method string — in particular `max_ellipsoid` — raises the
unsupported-method error before the rounding core is invoked. -/
theorem C6_rounding_allowlist {S : Type} (env : ForeignEnv S)
    (self : HPolytope S) (rm : String) (fm : Bool) :
    (∀ c : Int, roundingMethodCode rm = some c ↔
      (rm = "john_position" ∧ c = 1) ∨ (rm = "isotropic_position" ∧ c = 2) ∨
      (rm = "min_ellipsoid" ∧ c = 3)) ∧
    (roundingMethodCode rm = none →
      (HPolytope.rounding env self rm fm).1 =
        Except.error (PyError.runtimeError "Uknown rounding method") ∧
      (HPolytope.rounding env self rm fm).2.1.all
        (fun e => !(e matches Event.cppApplyRounding ..)) = true) ∧
    (∀ c : Int, roundingMethodCode rm = some c →
      (∃ r, (HPolytope.rounding env self rm fm).1 = Except.ok r) ∧
      (HPolytope.rounding env self rm fm).2.1 =
        [if fm then Event.fastInnerBall self._A self._b
         else Event.slowInnerBall self._A self._b,
         Event.cppApplyRounding c
           (if fm then (env.fast_inner_ball self._A self._b).1
            else (env.slow_inner_ball self._A self._b).1)
           (if fm then (env.fast_inner_ball self._A self._b).2
            else (env.slow_inner_ball self._A self._b).2)]) ∧
    (HPolytope.rounding env self "max_ellipsoid" fm).1 =
      Except.error (PyError.runtimeError "Uknown rounding method") := by
  refine ⟨?_, ?_, ?_, ?_⟩
  · intro c
    simp only [roundingMethodCode]
    by_cases h1 : rm = "john_position"
    · subst h1; simp [eq_comm]
    · by_cases h2 : rm = "isotropic_position"
      · subst h2; simp [eq_comm]
      · by_cases h3 : rm = "min_ellipsoid"
        · subst h3; simp [eq_comm]
        · simp [h1, h2, h3]
  · intro h
    cases fm <;> simp [HPolytope.rounding, h]
  · intro c h
    cases fm <;> simp [HPolytope.rounding, h]
  · cases fm <;> rfl

/-- C6 witness: concrete instances of the allow-list theorem — the
method `svd` (present in the unused module list) is rejected, and
`min_ellipsoid` maps to code 3. -/
theorem C6_witness :
    (HPolytope.rounding trivEnv p0 "svd" false).1 =
      Except.error (PyError.runtimeError "Uknown rounding method") ∧
    roundingMethodCode "min_ellipsoid" = some 3 :=
  ⟨((C6_rounding_allowlist trivEnv p0 "svd" false).2.1 rfl).1,
   ((C6_rounding_allowlist trivEnv p0 "min_ellipsoid" false).1 3).mpr
     (Or.inr (Or.inr ⟨rfl, rfl⟩))⟩

/-! Claim C7: shape of the sample matrix. -/

/-- The sampling-method allow-list as the spec states it. -/
def spec_sampling_methods : List String :=
  ["cdhr", "rdhr", "billiard_walk", "ball_walk", "dikin_walk",
   "john_walk", "vaidya_walk"]

/-- C7: for every valid sampling method (mapped to the codes 1–7 in the
documented order), `generate_samples` returns a matrix of exactly
`number_of_points` rows, each of length `dimension()`. -/
theorem C7_generate_samples_shape {S : Type} (env : ForeignEnv S)
    (self : HPolytope S) (method : String) (number_of_points : Nat)
    (nburn wl : Int) (fm : Bool)
    (hm : method ∈ spec_sampling_methods) :
    (samplingMethodCode "cdhr" = some 1 ∧ samplingMethodCode "rdhr" = some 2 ∧
     samplingMethodCode "billiard_walk" = some 3 ∧
     samplingMethodCode "ball_walk" = some 4 ∧
     samplingMethodCode "dikin_walk" = some 5 ∧
     samplingMethodCode "john_walk" = some 6 ∧
     samplingMethodCode "vaidya_walk" = some 7) ∧
    ∃ M, (HPolytope.generate_samples env self method number_of_points
        nburn wl fm).1 = Except.ok M ∧
      matRows M = number_of_points ∧
      ∀ row ∈ M, row.length = self.dimension := by
  refine ⟨⟨rfl, rfl, rfl, rfl, rfl, rfl, rfl⟩, ?_⟩
  simp only [spec_sampling_methods, List.mem_cons, List.not_mem_nil, or_false] at hm
  rcases hm with rfl | rfl | rfl | rfl | rfl | rfl | rfl <;>
    exact ⟨_, rfl, fillMat_rows _ _ _, fillMat_row_length _ _ _⟩

/-- C7 witness: a concrete 4-sample run over `trivEnv` has 4 rows of
width `p0.dimension`. -/
theorem C7_witness :
    ∃ M, (HPolytope.generate_samples trivEnv p0 "cdhr" 4 0 1 true).1 =
        Except.ok M ∧
      matRows M = 4 ∧ ∀ row ∈ M, row.length = p0.dimension :=
  (C7_generate_samples_shape trivEnv p0 "cdhr" 4 0 1 true
    (by simp [spec_sampling_methods])).2

/-! Claim C5: the volume method allow-lists. -/

/-- The volume-method allow-list as the spec states it. -/
def spec_volume_methods : List String :=
  ["sequence_of_balls", "cooling_gaussian", "cooling_balls"]

/-- The walk-method allow-list as the spec states it (seven entries, no
duplicate). -/
def spec_walk_methods : List String :=
  ["uniform_ball", "CDHR", "RDHR", "gaussian_ball", "gaussian_CDHR",
   "gaussian_RDHR", "billiard"]

lemma mem_volume_methods_iff (v : String) :
    v ∈ volume_methods ↔ v ∈ spec_volume_methods := Iff.rfl

lemma mem_walk_methods_iff (w : String) :
    w ∈ walk_methods ↔ w ∈ spec_walk_methods := by
  simp only [walk_methods, spec_walk_methods, List.mem_cons,
    List.not_mem_nil, or_false]
  tauto

/-- C5: `compute_volume` raises the unsupported-method error exactly
when the volume method is outside `{sequence_of_balls, cooling_gaussian,
cooling_balls}` or the walk method is outside the documented seven walk
methods; for any pair inside the allow-lists it performs exactly the
core call and returns the core's value. -/
theorem C5_compute_volume_allowlist {S : Type} (mod : VolestipyModule S)
    (self : HPolytope S) (wl : Int) (eps : Rat) (vm wm : String)
    (seed : Option Int) :
    ((∃ e, (HPolytope.compute_volume mod self wl eps vm wm seed).1 =
        Except.error e) ↔
      ¬(vm ∈ spec_volume_methods ∧ wm ∈ spec_walk_methods)) ∧
    (vm ∈ spec_volume_methods → wm ∈ spec_walk_methods →
      (HPolytope.compute_volume mod self wl eps vm wm seed).1 =
        Except.ok (mod.env.cpp_compute_volume self.polytope_cpp vm wm wl eps
          (seed.getD mod.compute_volume_default_seed)).1 ∧
      (HPolytope.compute_volume mod self wl eps vm wm seed).2.1 =
        [Event.cppComputeVolume vm wm wl eps
          (seed.getD mod.compute_volume_default_seed)]) := by
  by_cases hv : vm ∈ volume_methods
  · by_cases hw : wm ∈ walk_methods
    · refine ⟨?_, fun _ _ => ⟨?_, ?_⟩⟩
      · simp [HPolytope.compute_volume, hv, hw,
          (mem_volume_methods_iff vm).mp hv, (mem_walk_methods_iff wm).mp hw]
      · simp [HPolytope.compute_volume, hv, hw]
      · simp [HPolytope.compute_volume, hv, hw]
    · refine ⟨?_, fun _ h2 => absurd ((mem_walk_methods_iff wm).mpr h2) hw⟩
      simp [HPolytope.compute_volume, hv, hw]
      exact fun _ h2 => hw ((mem_walk_methods_iff wm).mpr h2)
  · refine ⟨?_, fun h1 _ => absurd ((mem_volume_methods_iff vm).mpr h1) hv⟩
    simp [HPolytope.compute_volume, hv]
    exact fun h1 _ => hv ((mem_volume_methods_iff vm).mpr h1)

/-- C5 witness: a concrete valid pair reaches the core, and a concrete
invalid pair fails. -/
theorem C5_witness :
    (HPolytope.compute_volume (importVolestipy trivEnv 7) p0 2 (1/20)
        "sequence_of_balls" "CDHR" none).1 = Except.ok 1 ∧
    (∃ e, (HPolytope.compute_volume (importVolestipy trivEnv 7) p0 2 (1/20)
        "sequence_of_balls" "bogus" none).1 = Except.error e) :=
  ⟨((C5_compute_volume_allowlist (importVolestipy trivEnv 7) p0 2 (1/20)
      "sequence_of_balls" "CDHR" none).2 (by decide) (by decide)).1,
   ((C5_compute_volume_allowlist (importVolestipy trivEnv 7) p0 2 (1/20)
      "sequence_of_balls" "bogus" none).1).mpr (by decide)⟩

/-! Claim C10: the default seed is evaluated once, at import time. -/

/-- C10: the default value of `compute_volume`'s `seed` parameter is the
wall-clock value read once at module import; every call that omits the
seed passes exactly that value to the core, so two such calls with equal
remaining arguments record identical core invocations — regardless of
which polytope object (or the same one after earlier calls) receives
them, and with no per-call clock read. -/
theorem C10_default_seed_evaluated_at_import {S : Type}
    (env : ForeignEnv S) (import_time : Int) (self self' : HPolytope S)
    (wl : Int) (eps : Rat) (vm wm : String)
    (hv : vm ∈ volume_methods) (hw : wm ∈ walk_methods) :
    (HPolytope.compute_volume (importVolestipy env import_time) self
        wl eps vm wm none).2.1 =
      [Event.cppComputeVolume vm wm wl eps (get_time_seed import_time)] ∧
    (HPolytope.compute_volume (importVolestipy env import_time) self
        wl eps vm wm none).2.1 =
      (HPolytope.compute_volume (importVolestipy env import_time) self'
        wl eps vm wm none).2.1 := by
  constructor <;>
    simp [HPolytope.compute_volume, hv, hw, importVolestipy, get_time_seed]

/-- C10 witness: two seedless calls at import time 12345, on the
polytope before and after another call, record the same core event with
seed 12345. -/
theorem C10_witness :
    (HPolytope.compute_volume (importVolestipy trivEnv 12345) p0 2 (1/20)
        "cooling_balls" "RDHR" none).2.1 =
      [Event.cppComputeVolume "cooling_balls" "RDHR" 2 (1/20)
        (get_time_seed 12345)] ∧
    (HPolytope.compute_volume (importVolestipy trivEnv 12345) p0 2 (1/20)
        "cooling_balls" "RDHR" none).2.1 =
      (HPolytope.compute_volume (importVolestipy trivEnv 12345)
        (HPolytope.compute_volume (importVolestipy trivEnv 12345) p0 2 (1/20)
          "cooling_balls" "RDHR" none).2.2 2 (1/20)
        "cooling_balls" "RDHR" none).2.1 :=
  C10_default_seed_evaluated_at_import trivEnv 12345 p0
    (HPolytope.compute_volume (importVolestipy trivEnv 12345) p0 2 (1/20)
      "cooling_balls" "RDHR" none).2.2 2 (1/20) "cooling_balls" "RDHR"
    (by decide) (by decide)

/-! Claim C1: eager validation before numerical work. -/

/-- C1 counterexample: calling `generate_samples` with the unknown
method string `"bogus"` fails with the unsupported-method error, yet its
trace already contains an inner-ball computation — `fast_inner_ball` ran
on the stored polytope before the method string was validated, so
validation does not precede all numerical work. -/
theorem C1_counterexample :
    (HPolytope.generate_samples trivEnv p0 "bogus" 1 0 1 true).1 =
      Except.error (PyError.runtimeError "Uknown MCMC sampling method") ∧
    (HPolytope.generate_samples trivEnv p0 "bogus" 1 0 1 true).2.1 =
      [Event.fastInnerBall [[1, 0], [0, 1], [-1, -1]] [1, 1, 1]] ∧
    (HPolytope.generate_samples trivEnv p0 "bogus" 1 0 1 true).2.1.any
      isInnerBallEvent = true :=
  ⟨rfl, rfl, rfl⟩

/-- C1 (amended): `compute_volume` does validate its method strings
before any external work (an invalid pair produces an empty trace), but
`generate_samples` and `rounding` compute the inscribed ball of the
stored polytope first and only then validate the method string; with an
invalid method they fail after exactly that one inner-ball call and
before the core sampling/rounding call. -/
theorem C1_validation_order {S : Type} (mod : VolestipyModule S)
    (env : ForeignEnv S) (self : HPolytope S) (wl nburn : Int) (eps : Rat)
    (vm wm method rmeth : String) (seed : Option Int)
    (npoints : Nat) (fm : Bool) :
    (vm ∉ volume_methods ∨ wm ∉ walk_methods →
      (∃ e, (HPolytope.compute_volume mod self wl eps vm wm seed).1 =
        Except.error e) ∧
      (HPolytope.compute_volume mod self wl eps vm wm seed).2.1 = []) ∧
    (samplingMethodCode method = none →
      (HPolytope.generate_samples env self method npoints nburn wl fm).1 =
        Except.error (PyError.runtimeError "Uknown MCMC sampling method") ∧
      (HPolytope.generate_samples env self method npoints nburn wl fm).2.1 =
        [if fm then Event.fastInnerBall self._A self._b
         else Event.slowInnerBall self._A self._b]) ∧
    (roundingMethodCode rmeth = none →
      (HPolytope.rounding env self rmeth fm).1 =
        Except.error (PyError.runtimeError "Uknown rounding method") ∧
      (HPolytope.rounding env self rmeth fm).2.1 =
        [if fm then Event.fastInnerBall self._A self._b
         else Event.slowInnerBall self._A self._b]) := by
  refine ⟨?_, ?_, ?_⟩
  · intro h
    rcases h with h | h
    · simp [HPolytope.compute_volume, h]
    · by_cases hv : vm ∈ volume_methods <;>
        simp [HPolytope.compute_volume, hv, h]
  · intro h
    cases fm <;> simp [HPolytope.generate_samples, h]
  · intro h
    cases fm <;> simp [HPolytope.rounding, h]

/-- C1 witness: the amended ordering at concrete invalid method strings:
an invalid volume method yields an empty trace, and an invalid rounding
method yields exactly one (slow) inner-ball event. -/
theorem C1_witness :
    ((∃ e, (HPolytope.compute_volume (importVolestipy trivEnv 0) p0 2 (1/20)
        "bogus" "CDHR" none).1 = Except.error e) ∧
      (HPolytope.compute_volume (importVolestipy trivEnv 0) p0 2 (1/20)
        "bogus" "CDHR" none).2.1 = []) ∧
    ((HPolytope.rounding trivEnv p0 "max_ellipsoid" false).1 =
        Except.error (PyError.runtimeError "Uknown rounding method") ∧
      (HPolytope.rounding trivEnv p0 "max_ellipsoid" false).2.1 =
        [if false then Event.fastInnerBall p0._A p0._b
         else Event.slowInnerBall p0._A p0._b]) :=
  ⟨(C1_validation_order (importVolestipy trivEnv 0) trivEnv p0 2 0 (1/20)
      "bogus" "CDHR" "x" "x" none 1 false).1 (Or.inl (by decide)),
   (C1_validation_order (importVolestipy trivEnv 0) trivEnv p0 2 0 (1/20)
      "bogus" "CDHR" "x" "max_ellipsoid" none 1 false).2.2 rfl⟩

/-! Claim C9: the stored polytope is read-only. -/

lemma compute_volume_preserves_stored {S : Type} (mod : VolestipyModule S)
    (self : HPolytope S) (wl : Int) (eps : Rat) (vm wm : String)
    (seed : Option Int) :
    (HPolytope.compute_volume mod self wl eps vm wm seed).2.2._A = self._A ∧
    (HPolytope.compute_volume mod self wl eps vm wm seed).2.2._b = self._b := by
  by_cases hv : vm ∈ volume_methods
  · by_cases hw : wm ∈ walk_methods <;>
      simp [HPolytope.compute_volume, hv, hw]
  · simp [HPolytope.compute_volume, hv]

lemma generate_samples_preserves_stored {S : Type} (env : ForeignEnv S)
    (self : HPolytope S) (method : String) (npoints : Nat) (nburn wl : Int)
    (fm : Bool) :
    (HPolytope.generate_samples env self method npoints nburn wl fm).2.2._A =
      self._A ∧
    (HPolytope.generate_samples env self method npoints nburn wl fm).2.2._b =
      self._b := by
  cases hc : samplingMethodCode method <;>
    cases fm <;> simp [HPolytope.generate_samples, hc]

lemma rounding_preserves_stored {S : Type} (env : ForeignEnv S)
    (self : HPolytope S) (rmeth : String) (fm : Bool) :
    (HPolytope.rounding env self rmeth fm).2.2._A = self._A ∧
    (HPolytope.rounding env self rmeth fm).2.2._b = self._b := by
  cases hc : roundingMethodCode rmeth <;>
    cases fm <;> simp [HPolytope.rounding, hc]

lemma fast_mmcs_preserves_stored {S : Type} (env : ForeignEnv S)
    (self : HPolytope S) (ess : Int) (pc par : Bool) (nt : Int) (fuel : Nat)
    (res : (Mat × Vec × Mat × Vec × Mat) × HPolytope S × List Event)
    (h : HPolytope.fast_mmcs env self ess pc par nt fuel = some res) :
    res.2.1._A = self._A ∧ res.2.1._b = self._b := by
  cases hl : fastMmcsLoop env (matRows self._A) (matCols self._A) fuel
      (env.fast_inner_ball self._A self._b).1
      (env.fast_inner_ball self._A self._b).2
      (env.cpp_mmcs_initialize self.polytope_cpp (matCols self._A) ess pc
        par nt) with
  | none => simp [HPolytope.fast_mmcs, hl] at h
  | some x =>
      obtain ⟨N, s1, tr⟩ := x
      simp only [HPolytope.fast_mmcs, hl, Option.some.injEq] at h
      subst h
      exact ⟨rfl, rfl⟩

lemma slow_mmcs_preserves_stored {S : Type} (env : ForeignEnv S)
    (self : HPolytope S) (ess : Int) (pc par : Bool) (nt : Int) (fuel : Nat)
    (res : (Mat × Vec × Mat × Vec × Mat) × HPolytope S × List Event)
    (h : HPolytope.slow_mmcs env self ess pc par nt fuel = some res) :
    res.2.1._A = self._A ∧ res.2.1._b = self._b := by
  cases hl : slowMmcsLoop env (matRows self._A) (matCols self._A) fuel
      (env.slow_inner_ball self._A self._b).1
      (env.slow_inner_ball self._A self._b).2
      (env.cpp_mmcs_initialize self.polytope_cpp (matCols self._A) ess pc
        par nt) with
  | none => simp [HPolytope.slow_mmcs, hl] at h
  | some x =>
      obtain ⟨N, s1, tr⟩ := x
      simp only [HPolytope.slow_mmcs, hl, Option.some.injEq] at h
      subst h
      exact ⟨rfl, rfl⟩

/-- C9: no wrapper operation mutates the stored polytope data — after
`compute_volume`, `generate_samples`, `rounding`, `fast_mmcs` or
`slow_mmcs`, the accessors `A()`, `b()` and `dimension()` still return
the construction-time values (rounding and MMCS deliver their results in
freshly allocated buffers). -/
theorem C9_stored_polytope_read_only {S : Type} (mod : VolestipyModule S)
    (env : ForeignEnv S) (self : HPolytope S) (wl nburn : Int) (eps : Rat)
    (vm wm method rmeth : String) (seed : Option Int) (npoints : Nat)
    (fm : Bool) (ess nt : Int) (pc par : Bool) (fuel : Nat) :
    ((HPolytope.compute_volume mod self wl eps vm wm seed).2.2.A = self.A ∧
     (HPolytope.compute_volume mod self wl eps vm wm seed).2.2.b = self.b ∧
     (HPolytope.compute_volume mod self wl eps vm wm seed).2.2.dimension =
       self.dimension) ∧
    ((HPolytope.generate_samples env self method npoints nburn wl
        fm).2.2.A = self.A ∧
     (HPolytope.generate_samples env self method npoints nburn wl
        fm).2.2.b = self.b ∧
     (HPolytope.generate_samples env self method npoints nburn wl
        fm).2.2.dimension = self.dimension) ∧
    ((HPolytope.rounding env self rmeth fm).2.2.A = self.A ∧
     (HPolytope.rounding env self rmeth fm).2.2.b = self.b ∧
     (HPolytope.rounding env self rmeth fm).2.2.dimension =
       self.dimension) ∧
    (∀ res, HPolytope.fast_mmcs env self ess pc par nt fuel = some res →
      res.2.1.A = self.A ∧ res.2.1.b = self.b ∧
      res.2.1.dimension = self.dimension) ∧
    (∀ res, HPolytope.slow_mmcs env self ess pc par nt fuel = some res →
      res.2.1.A = self.A ∧ res.2.1.b = self.b ∧
      res.2.1.dimension = self.dimension) := by
  obtain ⟨hcv1, hcv2⟩ :=
    compute_volume_preserves_stored mod self wl eps vm wm seed
  obtain ⟨hgs1, hgs2⟩ :=
    generate_samples_preserves_stored env self method npoints nburn wl fm
  obtain ⟨hrd1, hrd2⟩ := rounding_preserves_stored env self rmeth fm
  refine ⟨⟨hcv1, hcv2, ?_⟩, ⟨hgs1, hgs2, ?_⟩, ⟨hrd1, hrd2, ?_⟩, ?_, ?_⟩
  · simp [HPolytope.dimension, hcv1]
  · simp [HPolytope.dimension, hgs1]
  · simp [HPolytope.dimension, hrd1]
  · intro res h
    obtain ⟨h1, h2⟩ := fast_mmcs_preserves_stored env self ess pc par nt
      fuel res h
    exact ⟨h1, h2, by simp [HPolytope.dimension, h1]⟩
  · intro res h
    obtain ⟨h1, h2⟩ := slow_mmcs_preserves_stored env self ess pc par nt
      fuel res h
    exact ⟨h1, h2, by simp [HPolytope.dimension, h1]⟩

/-- C9 witness: the property at a concrete MMCS run over `trivEnv`
(which converges in its first phase). -/
theorem C9_witness :
    (HPolytope.rounding trivEnv p0 "john_position" false).2.2.A = p0.A ∧
    ∃ res, HPolytope.fast_mmcs trivEnv p0 1000 true false 2 1 = some res ∧
      res.2.1.A = p0.A ∧ res.2.1.b = p0.b ∧
      res.2.1.dimension = p0.dimension :=
  by
  have hrun : HPolytope.fast_mmcs trivEnv p0 1000 true false 2 1 =
      some (([[0, 0], [0, 0], [0, 0]], [0, 0, 0], [[0, 0], [0, 0]], [0, 0],
        [[0, 0, 0, 0, 0], [0, 0, 0, 0, 0]]),
       ⟨(), [[1, 0], [0, 1], [-1, -1]], [1, 1, 1]⟩,
       [Event.cppMmcsInitialize 2 1000 true false 2,
        Event.fastInnerBall [[1, 0], [0, 1], [-1, -1]] [1, 1, 1],
        Event.cppMmcsStep [0] 1 (3/2),
        Event.cppGetMmcsSamples, Event.cppGetPolytopeAsMatrices]) := by
    have hc : ((1 : Rat) < 3/2 ∧ (3 : Rat)/2 < 2) := by norm_num
    simp [HPolytope.fast_mmcs, fastMmcsLoop, trivEnv, p0, HPolytope.cinit,
      hc, fillMat, fillVec, matRows, matCols, List.range_succ]
  exact ⟨(C9_stored_polytope_read_only (importVolestipy trivEnv 0) trivEnv p0
      2 0 (1/20) "x" "x" "x" "john_position" none 1 false 1000 2 true
      false 1).2.2.1.1,
    ⟨_, hrun,
     (C9_stored_polytope_read_only (importVolestipy trivEnv 0) trivEnv p0
      2 0 (1/20) "x" "x" "x" "john_position" none 1 false 1000 2 true
      false 1).2.2.2.1 _ hrun⟩⟩

/-! Claim C8: `fast_mmcs` and `slow_mmcs` differ only in the inner-ball
supplier. -/

lemma slowLoop_eq_swapped_fastLoop {S : Type} (env : ForeignEnv S)
    (f : Mat → Vec → Vec × Rat) (nh nv fuel : Nat) :
    ∀ (p : Vec) (r : Rat) (s : S),
      slowMmcsLoop { env with slow_inner_ball := f } nh nv fuel p r s =
        (fastMmcsLoop { env with fast_inner_ball := f } nh nv fuel p r
          s).map (fun x => (x.1, x.2.1, x.2.2.map swapBall)) := by
  induction fuel with
  | zero => intro p r s; rfl
  | succ n ih =>
      intro p r s
      simp only [slowMmcsLoop, fastMmcsLoop]
      by_cases hc : (env.cpp_mmcs_step s p r).1 > 1 ∧
          (env.cpp_mmcs_step s p r).1 < 2
      · simp [hc, swapBall]
      · simp only [hc, if_false, ite_false]
        rw [ih, Option.map_map, Option.map_map]
        congr 1

/-- C8: `fast_mmcs` and `slow_mmcs` are the same procedure up to the
inner-ball supplier: with an arbitrary supplier `f` plugged into the
respective slot of an otherwise identical environment, both runs return
the same `(A, b, T, shift, samples)` tuple, the same final object state,
and traces that are identical except that each fast inner-ball call is
renamed into a slow one. -/
theorem C8_fast_slow_mmcs_equiv {S : Type} (env : ForeignEnv S)
    (f : Mat → Vec → Vec × Rat) (self : HPolytope S) (ess : Int)
    (pc par : Bool) (nt : Int) (fuel : Nat) :
    HPolytope.slow_mmcs { env with slow_inner_ball := f } self ess pc par
        nt fuel =
      (HPolytope.fast_mmcs { env with fast_inner_ball := f } self ess pc
        par nt fuel).map
        (fun x => (x.1, x.2.1, x.2.2.map swapBall)) := by
  simp only [HPolytope.slow_mmcs, HPolytope.fast_mmcs]
  rw [slowLoop_eq_swapped_fastLoop]
  cases hrec : fastMmcsLoop { env with fast_inner_ball := f }
      (matRows self._A) (matCols self._A) fuel
      (f self._A self._b).1 (f self._A self._b).2
      (env.cpp_mmcs_initialize self.polytope_cpp (matCols self._A) ess pc
        par nt) with
  | none => rfl
  | some x => simp [swapBall]

/-! Claim C3: structure of the MMCS phase loop. -/

/-- The phase protocol stated by the claim, relative to a step function,
a polytope getter, an inner-ball supplier and its trace event: a run is
a strictly sequential chain of `mmcs_step` phases; it terminates exactly
at a phase whose status lies strictly between 1 and 2; after any other
status, the current rounded polytope is fetched via
`get_polytope_as_matrices` and its inscribed ball is recomputed, and the
next phase starts from that ball's centre and radius. -/
inductive PhaseTrace {S : Type} (step : S → Vec → Rat → Rat × Int × S)
    (getPoly : S → (Nat → Nat → Rat) × (Nat → Rat))
    (ball : Mat → Vec → Vec × Rat) (ballEv : Mat → Vec → Event)
    (nh nv : Nat) : S → Vec → Rat → List Event → Prop
  | converged (s : S) (p : Vec) (r : Rat)
      (h1 : 1 < (step s p r).1) (h2 : (step s p r).1 < 2) :
      PhaseTrace step getPoly ball ballEv nh nv s p r
        [Event.cppMmcsStep p r (step s p r).1]
  | nextPhase (s : S) (p : Vec) (r : Rat) (tr : List Event)
      (h : ¬(1 < (step s p r).1 ∧ (step s p r).1 < 2))
      (hrest : PhaseTrace step getPoly ball ballEv nh nv
        (step s p r).2.2
        (ball (fillMat nh nv (getPoly (step s p r).2.2).1)
              (fillVec nh (getPoly (step s p r).2.2).2)).1
        (ball (fillMat nh nv (getPoly (step s p r).2.2).1)
              (fillVec nh (getPoly (step s p r).2.2).2)).2 tr) :
      PhaseTrace step getPoly ball ballEv nh nv s p r
        (Event.cppMmcsStep p r (step s p r).1 ::
         Event.cppGetPolytopeAsMatrices ::
         ballEv (fillMat nh nv (getPoly (step s p r).2.2).1)
                (fillVec nh (getPoly (step s p r).2.2).2) :: tr)

lemma fastMmcsLoop_phaseTrace {S : Type} (env : ForeignEnv S)
    (nh nv : Nat) (fuel : Nat) :
    ∀ (p : Vec) (r : Rat) (s : S) (res : Int × S × List Event),
      fastMmcsLoop env nh nv fuel p r s = some res →
      PhaseTrace env.cpp_mmcs_step env.cpp_get_polytope_as_matrices
        env.fast_inner_ball Event.fastInnerBall nh nv s p r res.2.2 := by
  induction fuel with
  | zero => intro p r s res h; cases h
  | succ n ih =>
      intro p r s res h
      simp only [fastMmcsLoop] at h
      by_cases hc : (env.cpp_mmcs_step s p r).1 > 1 ∧
          (env.cpp_mmcs_step s p r).1 < 2
      · rw [if_pos hc] at h
        injection h with h'
        subst h'
        exact PhaseTrace.converged s p r hc.1 hc.2
      · rw [if_neg hc] at h
        rcases Option.map_eq_some'.mp h with ⟨x, hx, hres⟩
        subst hres
        exact PhaseTrace.nextPhase s p r x.2.2 hc (ih _ _ _ x hx)

lemma slowMmcsLoop_phaseTrace {S : Type} (env : ForeignEnv S)
    (nh nv : Nat) (fuel : Nat) :
    ∀ (p : Vec) (r : Rat) (s : S) (res : Int × S × List Event),
      slowMmcsLoop env nh nv fuel p r s = some res →
      PhaseTrace env.cpp_mmcs_step env.cpp_get_polytope_as_matrices
        env.slow_inner_ball Event.slowInnerBall nh nv s p r res.2.2 := by
  induction fuel with
  | zero => intro p r s res h; cases h
  | succ n ih =>
      intro p r s res h
      simp only [slowMmcsLoop] at h
      by_cases hc : (env.cpp_mmcs_step s p r).1 > 1 ∧
          (env.cpp_mmcs_step s p r).1 < 2
      · rw [if_pos hc] at h
        injection h with h'
        subst h'
        exact PhaseTrace.converged s p r hc.1 hc.2
      · rw [if_neg hc] at h
        rcases Option.map_eq_some'.mp h with ⟨x, hx, hres⟩
        subst hres
        exact PhaseTrace.nextPhase s p r x.2.2 hc (ih _ _ _ x hx)

/-- C3: every completed `fast_mmcs` or `slow_mmcs` run consists of the
initialisation, the initial inner-ball computation, a phase loop obeying
`PhaseTrace` — exit exactly on a status strictly between 1 and 2, and
after every other status a fetch of the current rounded polytope and a
recomputation of its inscribed ball supplying the next phase's start
point and radius — followed by the final sample/polytope reads. -/
theorem C3_mmcs_phase_loop_structure {S : Type} (env : ForeignEnv S)
    (self : HPolytope S) (ess : Int) (pc par : Bool) (nt : Int)
    (fuel : Nat) :
    (∀ res, HPolytope.fast_mmcs env self ess pc par nt fuel = some res →
      ∃ tr, res.2.2 =
          Event.cppMmcsInitialize (matCols self._A) ess pc par nt ::
          Event.fastInnerBall self._A self._b ::
          (tr ++ [Event.cppGetMmcsSamples,
                  Event.cppGetPolytopeAsMatrices]) ∧
        PhaseTrace env.cpp_mmcs_step env.cpp_get_polytope_as_matrices
          env.fast_inner_ball Event.fastInnerBall (matRows self._A)
          (matCols self._A)
          (env.cpp_mmcs_initialize self.polytope_cpp (matCols self._A)
            ess pc par nt)
          (env.fast_inner_ball self._A self._b).1
          (env.fast_inner_ball self._A self._b).2 tr) ∧
    (∀ res, HPolytope.slow_mmcs env self ess pc par nt fuel = some res →
      ∃ tr, res.2.2 =
          Event.cppMmcsInitialize (matCols self._A) ess pc par nt ::
          Event.slowInnerBall self._A self._b ::
          (tr ++ [Event.cppGetMmcsSamples,
                  Event.cppGetPolytopeAsMatrices]) ∧
        PhaseTrace env.cpp_mmcs_step env.cpp_get_polytope_as_matrices
          env.slow_inner_ball Event.slowInnerBall (matRows self._A)
          (matCols self._A)
          (env.cpp_mmcs_initialize self.polytope_cpp (matCols self._A)
            ess pc par nt)
          (env.slow_inner_ball self._A self._b).1
          (env.slow_inner_ball self._A self._b).2 tr) := by
  constructor
  · intro res h
    cases hl : fastMmcsLoop env (matRows self._A) (matCols self._A) fuel
        (env.fast_inner_ball self._A self._b).1
        (env.fast_inner_ball self._A self._b).2
        (env.cpp_mmcs_initialize self.polytope_cpp (matCols self._A) ess
          pc par nt) with
    | none => simp [HPolytope.fast_mmcs, hl] at h
    | some x =>
        obtain ⟨N, s1, tr⟩ := x
        simp only [HPolytope.fast_mmcs, hl, Option.some.injEq] at h
        subst h
        exact ⟨tr, rfl,
          fastMmcsLoop_phaseTrace env (matRows self._A)
            (matCols self._A) fuel _ _ _ (N, s1, tr) hl⟩
  · intro res h
    cases hl : slowMmcsLoop env (matRows self._A) (matCols self._A) fuel
        (env.slow_inner_ball self._A self._b).1
        (env.slow_inner_ball self._A self._b).2
        (env.cpp_mmcs_initialize self.polytope_cpp (matCols self._A) ess
          pc par nt) with
    | none => simp [HPolytope.slow_mmcs, hl] at h
    | some x =>
        obtain ⟨N, s1, tr⟩ := x
        simp only [HPolytope.slow_mmcs, hl, Option.some.injEq] at h
        subst h
        exact ⟨tr, rfl,
          slowMmcsLoop_phaseTrace env (matRows self._A)
            (matCols self._A) fuel _ _ _ (N, s1, tr) hl⟩

/-- C3 witness: the phase-loop structure of a concrete converging run
over `trivEnv`. -/
theorem C3_witness :
    ∃ res tr,
      HPolytope.fast_mmcs trivEnv p0 1000 true false 2 1 = some res ∧
      res.2.2 = Event.cppMmcsInitialize 2 1000 true false 2 ::
        Event.fastInnerBall p0._A p0._b ::
        (tr ++ [Event.cppGetMmcsSamples,
                Event.cppGetPolytopeAsMatrices]) ∧
      PhaseTrace trivEnv.cpp_mmcs_step trivEnv.cpp_get_polytope_as_matrices
        trivEnv.fast_inner_ball Event.fastInnerBall 3 2 () [0] 1 tr := by
  have hrun : HPolytope.fast_mmcs trivEnv p0 1000 true false 2 1 =
      some (([[0, 0], [0, 0], [0, 0]], [0, 0, 0], [[0, 0], [0, 0]], [0, 0],
        [[0, 0, 0, 0, 0], [0, 0, 0, 0, 0]]),
       ⟨(), [[1, 0], [0, 1], [-1, -1]], [1, 1, 1]⟩,
       [Event.cppMmcsInitialize 2 1000 true false 2,
        Event.fastInnerBall [[1, 0], [0, 1], [-1, -1]] [1, 1, 1],
        Event.cppMmcsStep [0] 1 (3/2),
        Event.cppGetMmcsSamples, Event.cppGetPolytopeAsMatrices]) := by
    have hc : ((1 : Rat) < 3/2 ∧ (3 : Rat)/2 < 2) := by norm_num
    simp [HPolytope.fast_mmcs, fastMmcsLoop, trivEnv, p0, HPolytope.cinit,
      hc, fillMat, fillVec, matRows, matCols, List.range_succ]
  obtain ⟨tr, h1, h2⟩ :=
    (C3_mmcs_phase_loop_structure trivEnv p0 1000 true false 2 1).1 _ hrun
  exact ⟨_, tr, hrun, h1, h2⟩

/-! Claim C2: behaviour of the controller on a failed phase status. -/

/-- C2 counterexample: in the `failEnv` run the first phase reports the
failed status 2, yet the trace shows a second phase was executed — the
controller does not terminate on a failed status but proceeds exactly as
for a continue status. -/
theorem C2_counterexample :
    stepChecks failRunTrace = [2, 3/2] ∧
    ¬ terminatesOnFailure failRunTrace := by
  have hne : ¬((1 : Rat) < 2 ∧ (2 : Rat) < 2) := by norm_num
  have hc : ((1 : Rat) < 3/2 ∧ (3 : Rat)/2 < 2) := by norm_num
  have htr : failRunTrace =
      [Event.cppMmcsInitialize 1 1000 true false 2,
       Event.fastInnerBall [[1]] [1],
       Event.cppMmcsStep [0] 1 2,
       Event.cppGetPolytopeAsMatrices,
       Event.fastInnerBall [[0]] [0],
       Event.cppMmcsStep [0] 1 (3/2),
       Event.cppGetMmcsSamples,
       Event.cppGetPolytopeAsMatrices] := by
    simp [failRunTrace, HPolytope.fast_mmcs, fastMmcsLoop, failEnv, pFail,
      HPolytope.cinit, hne, hc, fillMat, fillVec, matRows, matCols,
      List.range_succ]
  rw [htr]
  refine ⟨rfl, fun hterm => ?_⟩
  have h := hterm 0 2 rfl (Or.inl le_rfl)
  simp [stepChecks] at h

/-- C2 (amended): a failed phase status (`≥ 2` or negative) does not
terminate the MMCS loop; exactly as for a continue status, the
controller fetches the current rounded polytope, recomputes its
inscribed ball and runs another phase — the loop exits only on a status
strictly between 1 and 2 (or when it never converges). -/
theorem C2_failed_status_continues {S : Type} (env : ForeignEnv S)
    (nh nv fuel : Nat) (p : Vec) (r : Rat) (s : S)
    (hfail : failedStatus (env.cpp_mmcs_step s p r).1) :
    (fastMmcsLoop env nh nv (fuel + 1) p r s =
      (fastMmcsLoop env nh nv fuel
        (env.fast_inner_ball
          (fillMat nh nv (env.cpp_get_polytope_as_matrices
            (env.cpp_mmcs_step s p r).2.2).1)
          (fillVec nh (env.cpp_get_polytope_as_matrices
            (env.cpp_mmcs_step s p r).2.2).2)).1
        (env.fast_inner_ball
          (fillMat nh nv (env.cpp_get_polytope_as_matrices
            (env.cpp_mmcs_step s p r).2.2).1)
          (fillVec nh (env.cpp_get_polytope_as_matrices
            (env.cpp_mmcs_step s p r).2.2).2)).2
        (env.cpp_mmcs_step s p r).2.2).map
        (fun x => (x.1, x.2.1,
          Event.cppMmcsStep p r (env.cpp_mmcs_step s p r).1 ::
          Event.cppGetPolytopeAsMatrices ::
          Event.fastInnerBall
            (fillMat nh nv (env.cpp_get_polytope_as_matrices
              (env.cpp_mmcs_step s p r).2.2).1)
            (fillVec nh (env.cpp_get_polytope_as_matrices
              (env.cpp_mmcs_step s p r).2.2).2) :: x.2.2))) ∧
    (slowMmcsLoop env nh nv (fuel + 1) p r s =
      (slowMmcsLoop env nh nv fuel
        (env.slow_inner_ball
          (fillMat nh nv (env.cpp_get_polytope_as_matrices
            (env.cpp_mmcs_step s p r).2.2).1)
          (fillVec nh (env.cpp_get_polytope_as_matrices
            (env.cpp_mmcs_step s p r).2.2).2)).1
        (env.slow_inner_ball
          (fillMat nh nv (env.cpp_get_polytope_as_matrices
            (env.cpp_mmcs_step s p r).2.2).1)
          (fillVec nh (env.cpp_get_polytope_as_matrices
            (env.cpp_mmcs_step s p r).2.2).2)).2
        (env.cpp_mmcs_step s p r).2.2).map
        (fun x => (x.1, x.2.1,
          Event.cppMmcsStep p r (env.cpp_mmcs_step s p r).1 ::
          Event.cppGetPolytopeAsMatrices ::
          Event.slowInnerBall
            (fillMat nh nv (env.cpp_get_polytope_as_matrices
              (env.cpp_mmcs_step s p r).2.2).1)
            (fillVec nh (env.cpp_get_polytope_as_matrices
              (env.cpp_mmcs_step s p r).2.2).2) :: x.2.2))) := by
  have hn : ¬((env.cpp_mmcs_step s p r).1 > 1 ∧
      (env.cpp_mmcs_step s p r).1 < 2) := by
    rcases hfail with h2 | h0
    · exact fun hc => absurd hc.2 (not_lt.mpr h2)
    · exact fun hc => absurd hc.1 (not_lt.mpr (le_of_lt
        (lt_trans h0 one_pos)))
  constructor
  · simp only [fastMmcsLoop]
    rw [if_neg hn]
  · simp only [slowMmcsLoop]
    rw [if_neg hn]

/-- C2 witness: the amended behaviour at the concrete failing
environment — after the failed status 2 of the first `failEnv` phase the
loop provably recurses. -/
theorem C2_witness :
    failedStatus (failEnv.cpp_mmcs_step 0 [0] 1).1 ∧
    fastMmcsLoop failEnv 1 1 2 [0] 1 0 =
      (fastMmcsLoop failEnv 1 1 1
        (failEnv.fast_inner_ball
          (fillMat 1 1 (failEnv.cpp_get_polytope_as_matrices
            (failEnv.cpp_mmcs_step 0 [0] 1).2.2).1)
          (fillVec 1 (failEnv.cpp_get_polytope_as_matrices
            (failEnv.cpp_mmcs_step 0 [0] 1).2.2).2)).1
        (failEnv.fast_inner_ball
          (fillMat 1 1 (failEnv.cpp_get_polytope_as_matrices
            (failEnv.cpp_mmcs_step 0 [0] 1).2.2).1)
          (fillVec 1 (failEnv.cpp_get_polytope_as_matrices
            (failEnv.cpp_mmcs_step 0 [0] 1).2.2).2)).2
        (failEnv.cpp_mmcs_step 0 [0] 1).2.2).map
        (fun x => (x.1, x.2.1,
          Event.cppMmcsStep [0] 1 (failEnv.cpp_mmcs_step 0 [0] 1).1 ::
          Event.cppGetPolytopeAsMatrices ::
          Event.fastInnerBall
            (fillMat 1 1 (failEnv.cpp_get_polytope_as_matrices
              (failEnv.cpp_mmcs_step 0 [0] 1).2.2).1)
            (fillVec 1 (failEnv.cpp_get_polytope_as_matrices
              (failEnv.cpp_mmcs_step 0 [0] 1).2.2).2) :: x.2.2)) := by
  have hfail : failedStatus (failEnv.cpp_mmcs_step 0 [0] 1).1 := by
    simp [failEnv, failedStatus]
  exact ⟨hfail,
    (C2_failed_status_continues failEnv 1 1 1 [0] 1 0 hfail).1⟩
